import Mathlib

/-!
Shallow embedding of the reconciliation jobs of abundo/abtools_librenms:
`src/update_librenms.py` and `src/sync_elements_to_librenms.py`.

Both scripts load the source-of-truth inventory (Device-API / Elements-API)
and the LibreNMS inventory, diff them, and call the LibreNMS API.  The
embedding models a run as the ordered list of API calls (`Action`) the
script issues.  Compiled configuration regexes are modelled as predicates
`String → Bool` giving the result of `regex.search` (some vs None).
-/

namespace Abtools

/-- One call against the LibreNMS API, as issued by either script:
`create_device`/`create_element`, `delete_device`/`delete_element`,
`update_device`/`update_element` (device-level ignore flag), and
`update_device_interface`/`update_element_interface` (per-port ignore). -/
inductive Action where
  | create (name : String)
  | delete (name : String)
  | updateDevice (name : String) (ignore : Nat)
  | updateInterface (port_id : Nat) (ignore : Nat)
  deriving DecidableEq

/-- The `librenms_sync` section of /etc/abtools/abtools_librenms.yaml, shared
by both scripts.  A compiled regex is modelled by the boolean result of its
`search` method. -/
structure Config where
  roles_enabled : List (String → Bool)
  interfaces_disabled : List (String → Bool)
  persistent_devices : List String
  persistent_elements : List String

/-! ### update_librenms.py -/

/-- An interface dict of a Device-API device (`api_device["interfaces"][name]`):
its `tags` list and its optional `role` key. -/
structure ApiInterface where
  tags : List String
  role : Option String
  deriving DecidableEq

/-- A Device-API device dict: the keys read by `update_librenms.py`.
Modelled as a structure, hence always truthy (the script reads
`device["enabled"]` on every device, so an empty dict would not survive the
create loop). -/
structure ApiDevice where
  enabled : Bool
  monitor_librenms : Bool
  alarm_interfaces : Bool
  interfaces : List (String × ApiInterface)
  deriving DecidableEq

/-- A LibreNMS port as returned by `get_device_interfaces`. -/
structure LInterface where
  ifname : String
  ifalias : String
  ifdescr : String
  ignore : Nat
  port_id : Nat
  deriving DecidableEq

/-- A LibreNMS device dict: the script reads only `ignore`. -/
structure LDevice where
  ignore : Nat
  deriving DecidableEq

/-- The LibreNMS side for `update_librenms.py`: the device dict returned by
`get_devices` and the per-device port query `get_device_interfaces` (None
when LibreNMS reports no interfaces). -/
structure LibrenmsState where
  devices : List (String × LDevice)
  interfaces : String → Option (List LInterface)

/-- `update_librenms.py` lines 64-71: find the key of `api_device["interfaces"]`
matching the LibreNMS port, trying `ifname`, then `ifalias`, then `ifdescr`;
`None` when none is a key. -/
def matchIntf (li : LInterface) (apiIntfs : List (String × ApiInterface)) :
    Option (String × ApiInterface) :=
  match apiIntfs.lookup li.ifname with
  | some ai => some (li.ifname, ai)
  | none =>
    match apiIntfs.lookup li.ifalias with
    | some ai => some (li.ifalias, ai)
    | none =>
      match apiIntfs.lookup li.ifdescr with
      | some ai => some (li.ifdescr, ai)
      | none => none

/-- `update_librenms.py` lines 74-101: the ignore value derived for one
LibreNMS port.  Default from `alarm_interfaces`; when the port is matched in
the Device-API: tag `uplink` → 0, tag `librenms_alarm_disable` → 1, tag
`librenms_alarm_enable` → 0, any `roles_enabled` regex matching the role →
0, and finally any `interfaces_disabled` regex matching the name → 1. -/
def interfaceIgnore (cfg : Config) (dev : ApiDevice) (li : LInterface) : Nat :=
  let dflt : Nat := if dev.alarm_interfaces then 0 else 1
  match matchIntf li dev.interfaces with
  | none => dflt
  | some (nm, ai) =>
    let i1 := if ai.tags.contains "uplink" then 0 else dflt
    let i2 := if ai.tags.contains "librenms_alarm_disable" then 1 else i1
    let i3 := if ai.tags.contains "librenms_alarm_enable" then 0 else i2
    let i4 :=
      match ai.role with
      | none => i3
      | some r => if cfg.roles_enabled.any (fun p => p r) then 0 else i3
    if cfg.interfaces_disabled.any (fun p => p nm) then 1 else i4

/-- `update_librenms.py` `sync_interfaces` lines 103-109: one
`update_device_interface` call per LibreNMS port whose stored ignore differs
from the derived one; nothing when LibreNMS reports no interfaces. -/
def syncIntfActions (cfg : Config) (st : LibrenmsState) (name : String)
    (dev : ApiDevice) : List Action :=
  match st.interfaces name with
  | none => []
  | some lintfs =>
    lintfs.filterMap (fun li =>
      if li.ignore = interfaceIgnore cfg dev li then none
      else some (Action.updateInterface li.port_id (interfaceIgnore cfg dev li)))

/-- `update_librenms.py` lines 211-223: the device-level `update_device` call,
issued exactly when `(ignore == 0) != enabled`, carrying ignore 0 for an
enabled device and 1 for a disabled one. -/
def devUpdActions (name : String) (ld : LDevice) (dev : ApiDevice) : List Action :=
  if (decide (ld.ignore = 0)) = dev.enabled then []
  else [Action.updateDevice name (if dev.enabled then 0 else 1)]

/-- The device-level ignore flag after the run: the value carried by the
issued `update_device` call, or the stored one when no call is issued. -/
def devNewIgnore (name : String) (ld : LDevice) (dev : ApiDevice) : Nat :=
  match devUpdActions name ld dev with
  | [Action.updateDevice _ v] => v
  | _ => ld.ignore

/-- `update_librenms.py` lines 145-155: names queued for creation — in the
Device-API, `enabled`, `monitor_librenms`, and not in LibreNMS. -/
def createList (api : List (String × ApiDevice)) (st : LibrenmsState) : List String :=
  (api.filter (fun p =>
    p.2.enabled && p.2.monitor_librenms && (st.devices.lookup p.1).isNone)).map Prod.fst

/-- `update_librenms.py` lines 157-169: names queued for deletion — in
LibreNMS, not persistent, and either absent from the Device-API or present
but not `enabled`. -/
def deleteList (cfg : Config) (api : List (String × ApiDevice))
    (st : LibrenmsState) : List String :=
  (st.devices.filter (fun p =>
    !cfg.persistent_devices.contains p.1 &&
    (match api.lookup p.1 with
     | none => true
     | some d => !d.enabled))).map Prod.fst

/-- `update_librenms.py` lines 205-225: the update pass over the LibreNMS
device list fetched at start: devices absent from the Device-API are
skipped, the rest get the device-level update (when flags differ) followed
by the interface sync. -/
def updatePhase (cfg : Config) (api : List (String × ApiDevice))
    (st : LibrenmsState) : List Action :=
  st.devices.flatMap (fun p =>
    match api.lookup p.1 with
    | none => []
    | some dev => devUpdActions p.1 p.2 dev ++ syncIntfActions cfg st p.1 dev)

/-- The ordered list of LibreNMS API calls of one `update_librenms.py` run:
all creates (lines 182-185), then all deletes (lines 190-193), then the
update pass (lines 205-225). -/
def runUpdate (cfg : Config) (api : List (String × ApiDevice))
    (st : LibrenmsState) : List Action :=
  (createList api st).map Action.create ++
  (deleteList cfg api st).map Action.delete ++
  updatePhase cfg api st

/-! ### sync_elements_to_librenms.py -/

/-- An interface dict of an Elements-API element: only the optional `role`
key is read. -/
structure EInterface where
  role : Option String
  deriving DecidableEq

/-- An Elements-API element dict: `monitor_librenms` is an optional key,
`active` and the optional `interfaces` dict are read by the script. -/
structure Element where
  monitor_librenms : Option Bool
  active : Bool
  interfaces : Option (List (String × EInterface))
  deriving DecidableEq

/-- A LibreNMS port as returned by `get_element_interfaces` (keyed by name). -/
structure LIntf where
  ignore : Nat
  port_id : Nat
  deriving DecidableEq

/-- The LibreNMS side for `sync_elements_to_librenms.py`. -/
structure SLibrenmsState where
  elements : List (String × LDevice)
  interfaces : String → Option (List (String × LIntf))

/-- `sync_elements_to_librenms.py` lines 95-100: drop elements whose
`monitor_librenms` key is present and False. -/
def filterMonitored (tmp : List (String × Element)) : List (String × Element) :=
  tmp.filter (fun p => !(p.2.monitor_librenms == some false))

/-- `sync_elements_to_librenms.py` lines 64-77: the ignore value derived for
one LibreNMS port.  Default 0; when the port name is a key of the element's
interfaces: every `roles_enabled` regex NOT matching the role sets ignore to
1 (so 0 survives only when all match), then any `interfaces_disabled` regex
matching the name sets it to 1. -/
def interfaceIgnoreS (cfg : Config) (elemIntfs : List (String × EInterface))
    (lname : String) : Nat :=
  match elemIntfs.lookup lname with
  | none => 0
  | some ei =>
    let i1 :=
      match ei.role with
      | none => 0
      | some r => if cfg.roles_enabled.all (fun p => p r) then 0 else 1
    if cfg.interfaces_disabled.any (fun p => p lname) then 1 else i1

/-- `sync_elements_to_librenms.py` `sync_interfaces` lines 43-83: one
`update_element_interface` call per LibreNMS port whose stored ignore
differs from the derived one.  `main` calls it only under the guard
`'interfaces' in api_element`, so the missing-key case yields nothing. -/
def syncIntfActionsS (cfg : Config) (st : SLibrenmsState)
    (api : List (String × Element)) (hostname : String) : List Action :=
  match st.interfaces hostname with
  | none => []
  | some lintfs =>
    match api.lookup hostname with
    | none => []
    | some e =>
      let elemIntfs := e.interfaces.getD []
      lintfs.filterMap (fun p =>
        if p.2.ignore = interfaceIgnoreS cfg elemIntfs p.1 then none
        else some (Action.updateInterface p.2.port_id
          (interfaceIgnoreS cfg elemIntfs p.1)))

/-- `sync_elements_to_librenms.py` lines 171-183: the device-level
`update_element` call, issued exactly when `(ignore == 0) != active`. -/
def devUpdActionsS (hostname : String) (ld : LDevice) (e : Element) : List Action :=
  if (decide (ld.ignore = 0)) = e.active then []
  else [Action.updateDevice hostname (if e.active then 0 else 1)]

/-- The element-level ignore flag after the run. -/
def devNewIgnoreS (hostname : String) (ld : LDevice) (e : Element) : Nat :=
  match devUpdActionsS hostname ld e with
  | [Action.updateDevice _ v] => v
  | _ => ld.ignore

/-- `sync_elements_to_librenms.py` lines 122-129: hostnames queued for
creation, `set(api_elements) - set(librenms_elements)`.  Python iterates the
set in unspecified order; the model fixes source order, which no claim
depends on. -/
def createListS (api : List (String × Element)) (st : SLibrenmsState) : List String :=
  (api.filter (fun p => (st.elements.lookup p.1).isNone)).map Prod.fst

/-- `sync_elements_to_librenms.py` lines 131-140: hostnames queued for
deletion, `set(librenms) - set(api) - set(persistent_elements)`. -/
def deleteListS (cfg : Config) (api : List (String × Element))
    (st : SLibrenmsState) : List String :=
  (st.elements.filter (fun p =>
    (api.lookup p.1).isNone && !cfg.persistent_elements.contains p.1)).map Prod.fst

/-- `sync_elements_to_librenms.py` lines 164-185: the update pass over the
LibreNMS element list: elements absent from the (filtered) Elements-API are
skipped, the rest get the element-level update followed, when the element
has an `interfaces` key, by the interface sync. -/
def updatePhaseS (cfg : Config) (api : List (String × Element))
    (st : SLibrenmsState) : List Action :=
  st.elements.flatMap (fun p =>
    match api.lookup p.1 with
    | none => []
    | some e =>
      devUpdActionsS p.1 p.2 e ++
      (match e.interfaces with
       | none => []
       | some _ => syncIntfActionsS cfg st api p.1))

/-- The ordered list of LibreNMS API calls of one
`sync_elements_to_librenms.py` run: creates (lines 149-152), then deletes
(lines 157-160), then the update pass (lines 164-185), all over the
monitor-filtered Elements-API dict. -/
def runSync (cfg : Config) (tmp : List (String × Element))
    (st : SLibrenmsState) : List Action :=
  (createListS (filterMonitored tmp) st).map Action.create ++
  (deleteListS cfg (filterMonitored tmp) st).map Action.delete ++
  updatePhaseS cfg (filterMonitored tmp) st

/-! ### Top-level handler (`__main__` of both scripts) -/

/-- The report `utils.send_traceback()` sends; the function lives in the
external ablib library, modelled as emitting one report. -/
def tracebackReport : String := "send_traceback"

/-- A run of `main()` with an injected failure: `none` means no exception;
`some k` means an exception is raised after `k` API calls have been issued
(truncated at the run's length), and the flag records that an exception
escaped `main`. -/
def mainUpdateFault (cfg : Config) (api : List (String × ApiDevice))
    (st : LibrenmsState) (fault : Option Nat) : List Action × Bool :=
  match fault with
  | none => (runUpdate cfg api st, false)
  | some k => ((runUpdate cfg api st).take k, true)

/-- `update_librenms.py` lines 228-233: `main()` is called once inside
`try`; a bare `except` catches any exception and calls
`utils.send_traceback()`.  The result pairs the API calls issued with the
reports sent. -/
def scriptUpdate (cfg : Config) (api : List (String × ApiDevice))
    (st : LibrenmsState) (fault : Option Nat) : List Action × List String :=
  match mainUpdateFault cfg api st fault with
  | (acts, false) => (acts, [])
  | (acts, true) => (acts, [tracebackReport])

/-- As `mainUpdateFault`, for `sync_elements_to_librenms.py`. -/
def mainSyncFault (cfg : Config) (tmp : List (String × Element))
    (st : SLibrenmsState) (fault : Option Nat) : List Action × Bool :=
  match fault with
  | none => (runSync cfg tmp st, false)
  | some k => ((runSync cfg tmp st).take k, true)

/-- `sync_elements_to_librenms.py` lines 188-193: the same
catch-and-report `__main__` block. -/
def scriptSync (cfg : Config) (tmp : List (String × Element))
    (st : SLibrenmsState) (fault : Option Nat) : List Action × List String :=
  match mainSyncFault cfg tmp st fault with
  | (acts, false) => (acts, [])
  | (acts, true) => (acts, [tracebackReport])

/-- Phase rank of an action: creates before deletes before updates
(device-level and interface-level updates both belong to the update pass). -/
def actionKind : Action → Nat
  | .create _ => 0
  | .delete _ => 1
  | .updateDevice _ _ => 2
  | .updateInterface _ _ => 2

/-- The device-level ignore value the source inventory prescribes. -/
def devDerived (enabled : Bool) : Nat := if enabled then 0 else 1

/-! ### Helper lemmas -/

theorem lookup_some_mem {α β : Type} [BEq α] [LawfulBEq α] {l : List (α × β)}
    {k : α} {v : β} (h : l.lookup k = some v) : (k, v) ∈ l := by
  obtain ⟨l₁, l₂, rfl, -⟩ := List.lookup_eq_some_iff.1 h
  exact List.mem_append_right _ (List.mem_cons_self _ _)

theorem lookup_none_not_mem {α β : Type} [BEq α] [LawfulBEq α] {l : List (α × β)}
    {k : α} (h : l.lookup k = none) (v : β) : (k, v) ∉ l := by
  intro hmem
  have := List.lookup_eq_none_iff.1 h (k, v) hmem
  simp at this

theorem kind_devUpdActions {n ld dev a} (h : a ∈ devUpdActions n ld dev) :
    actionKind a = 2 := by
  unfold devUpdActions at h
  split at h
  · simp at h
  · simp at h; subst h; rfl

theorem kind_syncIntfActions {cfg st n dev a} (h : a ∈ syncIntfActions cfg st n dev) :
    actionKind a = 2 := by
  unfold syncIntfActions at h
  split at h
  · simp at h
  · obtain ⟨li, -, hli⟩ := List.mem_filterMap.1 h
    split at hli
    · simp at hli
    · simp at hli; subst hli; rfl

theorem kind_updatePhase {cfg api st a} (h : a ∈ updatePhase cfg api st) :
    actionKind a = 2 := by
  obtain ⟨p, -, hp⟩ := List.mem_flatMap.1 h
  split at hp
  · simp at hp
  · rcases List.mem_append.1 hp with h' | h'
    · exact kind_devUpdActions h'
    · exact kind_syncIntfActions h'

theorem kind_devUpdActionsS {n ld e a} (h : a ∈ devUpdActionsS n ld e) :
    actionKind a = 2 := by
  unfold devUpdActionsS at h
  split at h
  · simp at h
  · simp at h; subst h; rfl

theorem kind_syncIntfActionsS {cfg st api n a} (h : a ∈ syncIntfActionsS cfg st api n) :
    actionKind a = 2 := by
  unfold syncIntfActionsS at h
  split at h
  · simp at h
  · split at h
    · simp at h
    · obtain ⟨li, -, hli⟩ := List.mem_filterMap.1 h
      split at hli
      · simp at hli
      · simp at hli; subst hli; rfl

theorem kind_updatePhaseS {cfg api st a} (h : a ∈ updatePhaseS cfg api st) :
    actionKind a = 2 := by
  obtain ⟨p, -, hp⟩ := List.mem_flatMap.1 h
  split at hp
  · simp at hp
  · rcases List.mem_append.1 hp with h' | h'
    · exact kind_devUpdActionsS h'
    · split at h'
      · simp at h'
      · exact kind_syncIntfActionsS h'

theorem mem_updatePhase_of {cfg api st n ld dev a} (hmem : (n, ld) ∈ st.devices)
    (hl : api.lookup n = some dev)
    (ha : a ∈ devUpdActions n ld dev ++ syncIntfActions cfg st n dev) :
    a ∈ updatePhase cfg api st :=
  List.mem_flatMap.2 ⟨(n, ld), hmem, by simpa [hl] using ha⟩

theorem mem_runUpdate_of_phase {cfg api st a} (h : a ∈ updatePhase cfg api st) :
    a ∈ runUpdate cfg api st :=
  List.mem_append_right _ h

theorem mem_updatePhaseS_of {cfg api st n ld e a} (hmem : (n, ld) ∈ st.elements)
    (hl : api.lookup n = some e)
    (ha : a ∈ devUpdActionsS n ld e ++
      (match e.interfaces with
       | none => []
       | some _ => syncIntfActionsS cfg st api n)) :
    a ∈ updatePhaseS cfg api st :=
  List.mem_flatMap.2 ⟨(n, ld), hmem, by simpa [hl] using ha⟩

theorem mem_runSync_of_phase {cfg tmp st a}
    (h : a ∈ updatePhaseS cfg (filterMonitored tmp) st) : a ∈ runSync cfg tmp st :=
  List.mem_append_right _ h

theorem create_mem_runUpdate {cfg api st n} (h : Action.create n ∈ runUpdate cfg api st) :
    n ∈ createList api st := by
  rcases List.mem_append.1 h with h' | h'
  · rcases List.mem_append.1 h' with h'' | h''
    · obtain ⟨x, hx, he⟩ := List.mem_map.1 h''
      injection he with he; subst he; exact hx
    · obtain ⟨x, -, he⟩ := List.mem_map.1 h''
      exact absurd he (by simp)
  · have := kind_updatePhase h'
    simp [actionKind] at this

theorem delete_mem_runUpdate {cfg api st n} (h : Action.delete n ∈ runUpdate cfg api st) :
    n ∈ deleteList cfg api st := by
  rcases List.mem_append.1 h with h' | h'
  · rcases List.mem_append.1 h' with h'' | h''
    · obtain ⟨x, -, he⟩ := List.mem_map.1 h''
      exact absurd he (by simp)
    · obtain ⟨x, hx, he⟩ := List.mem_map.1 h''
      injection he with he; subst he; exact hx
  · have := kind_updatePhase h'
    simp [actionKind] at this

theorem updDev_not_mem_syncIntfActions {cfg st n dev m v} :
    Action.updateDevice m v ∉ syncIntfActions cfg st n dev := by
  intro h
  unfold syncIntfActions at h
  split at h
  · simp at h
  · obtain ⟨li, -, hli⟩ := List.mem_filterMap.1 h
    split at hli
    · simp at hli
    · simp at hli

theorem updDev_not_mem_syncIntfActionsS {cfg st api hn m v} :
    Action.updateDevice m v ∉ syncIntfActionsS cfg st api hn := by
  intro h
  unfold syncIntfActionsS at h
  split at h
  · simp at h
  · split at h
    · simp at h
    · obtain ⟨li, -, hli⟩ := List.mem_filterMap.1 h
      split at hli
      · simp at hli
      · simp at hli

theorem updDev_mem_runUpdate {cfg api st n v}
    (h : Action.updateDevice n v ∈ runUpdate cfg api st) :
    ∃ ld, (n, ld) ∈ st.devices ∧ (api.lookup n).isSome := by
  rcases List.mem_append.1 h with h' | h'
  · rcases List.mem_append.1 h' with h'' | h''
    · obtain ⟨x, -, he⟩ := List.mem_map.1 h''
      exact absurd he (by simp)
    · obtain ⟨x, -, he⟩ := List.mem_map.1 h''
      exact absurd he (by simp)
  · obtain ⟨p, hp, hmem⟩ := List.mem_flatMap.1 h'
    revert hmem
    split
    · simp
    · intro hmem
      rcases List.mem_append.1 hmem with ha | ha
      · unfold devUpdActions at ha
        split at ha
        · simp at ha
        · simp at ha
          obtain ⟨he, -⟩ := ha
          subst he
          refine ⟨p.2, by simpa using hp, ?_⟩
          simp [*]
      · exact absurd ha updDev_not_mem_syncIntfActions

theorem create_mem_runSync {cfg tmp st n} (h : Action.create n ∈ runSync cfg tmp st) :
    n ∈ createListS (filterMonitored tmp) st := by
  rcases List.mem_append.1 h with h' | h'
  · rcases List.mem_append.1 h' with h'' | h''
    · obtain ⟨x, hx, he⟩ := List.mem_map.1 h''
      injection he with he; subst he; exact hx
    · obtain ⟨x, -, he⟩ := List.mem_map.1 h''
      exact absurd he (by simp)
  · have := kind_updatePhaseS h'
    simp [actionKind] at this

theorem delete_mem_runSync {cfg tmp st n} (h : Action.delete n ∈ runSync cfg tmp st) :
    n ∈ deleteListS cfg (filterMonitored tmp) st := by
  rcases List.mem_append.1 h with h' | h'
  · rcases List.mem_append.1 h' with h'' | h''
    · obtain ⟨x, -, he⟩ := List.mem_map.1 h''
      exact absurd he (by simp)
    · obtain ⟨x, hx, he⟩ := List.mem_map.1 h''
      injection he with he; subst he; exact hx
  · have := kind_updatePhaseS h'
    simp [actionKind] at this

theorem updDev_mem_runSync {cfg tmp st n v}
    (h : Action.updateDevice n v ∈ runSync cfg tmp st) :
    ∃ ld, (n, ld) ∈ st.elements ∧ ((filterMonitored tmp).lookup n).isSome := by
  rcases List.mem_append.1 h with h' | h'
  · rcases List.mem_append.1 h' with h'' | h''
    · obtain ⟨x, -, he⟩ := List.mem_map.1 h''
      exact absurd he (by simp)
    · obtain ⟨x, -, he⟩ := List.mem_map.1 h''
      exact absurd he (by simp)
  · obtain ⟨p, hp, hmem⟩ := List.mem_flatMap.1 h'
    revert hmem
    split
    · simp
    · intro hmem
      rcases List.mem_append.1 hmem with ha | ha
      · unfold devUpdActionsS at ha
        split at ha
        · simp at ha
        · simp at ha
          obtain ⟨he, -⟩ := ha
          subst he
          refine ⟨p.2, by simpa using hp, ?_⟩
          simp [*]
      · revert ha
        split
        · simp
        · exact fun ha => absurd ha updDev_not_mem_syncIntfActionsS

theorem devNewIgnore_zero_iff (n : String) (ld : LDevice) (dev : ApiDevice) :
    devNewIgnore n ld dev = 0 ↔ dev.enabled = true := by
  unfold devNewIgnore devUpdActions
  by_cases h : (decide (ld.ignore = 0)) = dev.enabled
  · rw [if_pos h]
    cases hb : dev.enabled <;> rw [hb] at h <;> simp at h <;> simp [h]
  · rw [if_neg h]
    cases hb : dev.enabled <;> simp [hb]

theorem devNewIgnoreS_zero_iff (n : String) (ld : LDevice) (e : Element) :
    devNewIgnoreS n ld e = 0 ↔ e.active = true := by
  unfold devNewIgnoreS devUpdActionsS
  by_cases h : (decide (ld.ignore = 0)) = e.active
  · rw [if_pos h]
    cases hb : e.active <;> rw [hb] at h <;> simp at h <;> simp [h]
  · rw [if_neg h]
    cases hb : e.active <;> simp [hb]

/-! ### Concrete fixtures for witnesses and counterexamples -/

/-- A small configuration: one role allow pattern, one interface deny pattern. -/
def cfgA : Config :=
  ⟨[fun s => s == "core"], [fun s => s == "mgmt0"], ["keepme"], ["keepmeS"]⟩

/-- A configuration with two role allow patterns and nothing else. -/
def cfgTwoRoles : Config :=
  ⟨[fun s => s == "core", fun s => s == "edge"], [], [], []⟩

/-- A Device-API device whose port `mgmt0` carries the enable tag and a
matching role, but whose name matches the deny pattern of `cfgA`. -/
def devDeny : ApiDevice :=
  ⟨true, true, true, [("mgmt0", ⟨["librenms_alarm_enable"], some "core"⟩)]⟩

/-- A LibreNMS port named `mgmt0`, currently not ignored. -/
def liDeny : LInterface := ⟨"mgmt0", "al", "de", 0, 5⟩

/-- A Device-API device with interface default alarm off whose port `eth1`
carries both the disable and the enable tag. -/
def devTagged : ApiDevice :=
  ⟨true, true, false, [("eth1", ⟨["librenms_alarm_disable", "librenms_alarm_enable"], none⟩)]⟩

/-- A LibreNMS port named `eth1`, currently ignored. -/
def liTagged : LInterface := ⟨"eth1", "al", "de", 1, 6⟩

/-- A Device-API device with interface default alarm off whose port `eth2`
has role `core` and no tags. -/
def devRole : ApiDevice := ⟨true, true, false, [("eth2", ⟨[], some "core"⟩)]⟩

/-- A LibreNMS port named `eth2`, currently ignored. -/
def liRole : LInterface := ⟨"eth2", "al", "de", 1, 7⟩

/-- An Elements-API interface dict with one port of role `core`. -/
def eintfCore : List (String × EInterface) := [("eth0", ⟨some "core"⟩)]

/-! ### Claims -/

/-- C5: for every interface present in the source inventory for its device
whose (matched) name matches at least one `interfaces_disabled` pattern, the
rule evaluation derives ignore = 1, regardless of the interface's tags, its
role, and the device-level default — in both scripts the deny loop runs
last and overrides everything. -/
theorem c5_denylist_forces_ignore :
    (∀ cfg dev li nm ai, matchIntf li dev.interfaces = some (nm, ai) →
      cfg.interfaces_disabled.any (fun p => p nm) = true →
      interfaceIgnore cfg dev li = 1) ∧
    (∀ cfg elemIntfs lname ei, List.lookup lname elemIntfs = some ei →
      cfg.interfaces_disabled.any (fun p => p lname) = true →
      interfaceIgnoreS cfg elemIntfs lname = 1) := by
  constructor
  · intro cfg dev li nm ai hm hd
    unfold interfaceIgnore
    rw [hm]
    simp only [hd, if_true]
  · intro cfg elemIntfs lname ei hm hd
    unfold interfaceIgnoreS
    rw [hm]
    simp only [hd, if_true]

/-- Witness for C5 at a concrete input: port `mgmt0` is matched, bears the
enable tag, has an allow-listed role, yet the deny pattern forces 1. -/
theorem c5_denylist_forces_ignore_witness :
    matchIntf liDeny devDeny.interfaces = some ("mgmt0", ⟨["librenms_alarm_enable"], some "core"⟩) ∧
    cfgA.interfaces_disabled.any (fun p => p "mgmt0") = true ∧
    interfaceIgnore cfgA devDeny liDeny = 1 ∧
    List.lookup "mgmt0" [("mgmt0", (⟨some "core"⟩ : EInterface))] = some ⟨some "core"⟩ ∧
    interfaceIgnoreS cfgA [("mgmt0", ⟨some "core"⟩)] "mgmt0" = 1 :=
  ⟨by decide, by decide,
   c5_denylist_forces_ignore.1 cfgA devDeny liDeny "mgmt0"
     ⟨["librenms_alarm_enable"], some "core"⟩ (by decide) (by decide),
   by decide,
   c5_denylist_forces_ignore.2 cfgA [("mgmt0", ⟨some "core"⟩)] "mgmt0"
     ⟨some "core"⟩ (by decide) (by decide)⟩

/-- C6: in `update_librenms.py`, for every interface present in the source
inventory for its device that bears the tag `librenms_alarm_enable` and
whose matched name matches no deny pattern, the derived ignore is 0, even
with the `librenms_alarm_disable` tag present and even when the device-level
default (`alarm_interfaces` false) would disable alerting. -/
theorem c6_enable_tag_overrides :
    ∀ cfg dev li nm ai, matchIntf li dev.interfaces = some (nm, ai) →
      ai.tags.contains "librenms_alarm_enable" = true →
      cfg.interfaces_disabled.any (fun p => p nm) = false →
      interfaceIgnore cfg dev li = 0 := by
  intro cfg dev li nm ai hm ht hd
  unfold interfaceIgnore
  rw [hm]
  simp only [ht, if_true, hd, if_false, Bool.false_eq_true]
  cases ai.role with
  | none => simp
  | some r => by_cases h : cfg.roles_enabled.any (fun p => p r) = true <;> simp [h]

/-- Witness for C6 at a concrete input: `eth1` bears both tags, the device
default is alarm-off, no deny pattern matches, and the result is 0. -/
theorem c6_enable_tag_overrides_witness :
    matchIntf liTagged devTagged.interfaces =
      some ("eth1", ⟨["librenms_alarm_disable", "librenms_alarm_enable"], none⟩) ∧
    devTagged.alarm_interfaces = false ∧
    interfaceIgnore cfgA devTagged liTagged = 0 :=
  ⟨by decide, by decide,
   c6_enable_tag_overrides cfgA devTagged liTagged "eth1"
     ⟨["librenms_alarm_disable", "librenms_alarm_enable"], none⟩
     (by decide) (by decide) (by decide)⟩

/-- C4 (amended): for an interface present in the source inventory with a
role and no deny-list match, `update_librenms.py` derives ignore = 0 as soon
as ANY `roles_enabled` pattern matches the role; in
`sync_elements_to_librenms.py` the loop sets ignore = 1 for every
non-matching pattern, so ignore = 0 requires the role to match EVERY
pattern, and one failing pattern forces ignore = 1. -/
theorem c4_role_allowlist_amended :
    (∀ cfg dev li nm ai r, matchIntf li dev.interfaces = some (nm, ai) →
      ai.role = some r →
      cfg.roles_enabled.any (fun p => p r) = true →
      cfg.interfaces_disabled.any (fun p => p nm) = false →
      interfaceIgnore cfg dev li = 0) ∧
    (∀ cfg elemIntfs lname ei r, List.lookup lname elemIntfs = some ei →
      ei.role = some r →
      cfg.roles_enabled.all (fun p => p r) = true →
      cfg.interfaces_disabled.any (fun p => p lname) = false →
      interfaceIgnoreS cfg elemIntfs lname = 0) ∧
    (∀ cfg elemIntfs lname ei r, List.lookup lname elemIntfs = some ei →
      ei.role = some r →
      cfg.roles_enabled.all (fun p => p r) = false →
      interfaceIgnoreS cfg elemIntfs lname = 1) := by
  refine ⟨?_, ?_, ?_⟩
  · intro cfg dev li nm ai r hm hr ha hd
    unfold interfaceIgnore
    rw [hm]
    simp only [hr, ha, if_true, hd, Bool.false_eq_true, if_false]
  · intro cfg elemIntfs lname ei r hm hr ha hd
    unfold interfaceIgnoreS
    rw [hm]
    simp only [hr, ha, if_true, hd, Bool.false_eq_true, if_false]
  · intro cfg elemIntfs lname ei r hm hr ha
    unfold interfaceIgnoreS
    rw [hm]
    simp only [hr, ha, Bool.false_eq_true, if_false]
    split <;> rfl

/-- Witness for C4 (amended) at concrete inputs: `eth2` with role `core`
matching the single pattern of `cfgA` gives 0 in both evaluations, and with
the two-pattern `cfgTwoRoles` the element evaluation gives 1. -/
theorem c4_role_allowlist_amended_witness :
    interfaceIgnore cfgA devRole liRole = 0 ∧
    interfaceIgnoreS cfgA eintfCore "eth0" = 0 ∧
    interfaceIgnoreS cfgTwoRoles eintfCore "eth0" = 1 :=
  ⟨(c4_role_allowlist_amended.1 cfgA devRole liRole "eth2" ⟨[], some "core"⟩ "core"
      (by decide) (by decide) (by decide) (by decide)),
   (c4_role_allowlist_amended.2.1 cfgA eintfCore "eth0" ⟨some "core"⟩ "core"
      (by decide) (by decide) (by decide) (by decide)),
   (c4_role_allowlist_amended.2.2 cfgTwoRoles eintfCore "eth0" ⟨some "core"⟩ "core"
      (by decide) (by decide) (by decide))⟩

/-- C4 counterexample: in `sync_elements_to_librenms.py`, port `eth0` is
present in the source, its role `core` matches the first of the two
configured allow patterns, no deny pattern matches, and yet the derived
ignore is 1, not 0 — matching a single allow pattern does not suffice. -/
theorem c4_role_allowlist_counterexample :
    List.lookup "eth0" eintfCore = some ⟨some "core"⟩ ∧
    cfgTwoRoles.roles_enabled.any (fun p => p "core") = true ∧
    cfgTwoRoles.interfaces_disabled.any (fun p => p "eth0") = false ∧
    interfaceIgnoreS cfgTwoRoles eintfCore "eth0" = 1 := by
  refine ⟨by decide, by decide, by decide, by decide⟩

/-- A one-device Device-API inventory: `a` enabled and monitored. -/
def apiEn : List (String × ApiDevice) := [("a", ⟨true, true, true, []⟩)]

/-- A LibreNMS state holding device `a` with stored ignore 1. -/
def stIgn : LibrenmsState := ⟨[("a", ⟨1⟩)], fun _ => some []⟩

/-- A one-element Elements-API inventory: `b` inactive, no monitor key. -/
def tmpInact : List (String × Element) := [("b", ⟨none, false, none⟩)]

/-- A LibreNMS state holding element `b` with stored ignore 0. -/
def sstAct : SLibrenmsState := ⟨[("b", ⟨0⟩)], fun _ => none⟩

/-- C1 (amended): for every device present in both the source inventory and
the LibreNMS inventory — in `sync_elements_to_librenms.py` restricted to
elements whose `monitor_librenms` key is not explicitly False, since the
others are dropped by the monitor filter and skipped by the update loop —
the run issues `update_device` with ignore 0 when the source marks it
enabled/active while LibreNMS stores ignore ≠ 0, and with ignore 1 when the
source marks it disabled/inactive while LibreNMS stores ignore 0;
afterwards the device-level flag satisfies ignore = 0 iff the source marks
the device enabled/active. -/
theorem c1_device_flag_sync_amended :
    (∀ cfg api st n ld dev, (n, ld) ∈ st.devices → api.lookup n = some dev →
      (dev.enabled = true → ld.ignore ≠ 0 →
        Action.updateDevice n 0 ∈ runUpdate cfg api st) ∧
      (dev.enabled = false → ld.ignore = 0 →
        Action.updateDevice n 1 ∈ runUpdate cfg api st) ∧
      (devNewIgnore n ld dev = 0 ↔ dev.enabled = true)) ∧
    (∀ cfg tmp st n ld e, (n, ld) ∈ st.elements →
      (filterMonitored tmp).lookup n = some e →
      (e.active = true → ld.ignore ≠ 0 →
        Action.updateDevice n 0 ∈ runSync cfg tmp st) ∧
      (e.active = false → ld.ignore = 0 →
        Action.updateDevice n 1 ∈ runSync cfg tmp st) ∧
      (devNewIgnoreS n ld e = 0 ↔ e.active = true)) := by
  constructor
  · intro cfg api st n ld dev hmem hl
    refine ⟨?_, ?_, devNewIgnore_zero_iff n ld dev⟩
    · intro hen hig
      have hd : Action.updateDevice n 0 ∈ devUpdActions n ld dev := by
        unfold devUpdActions
        simp [hen, hig]
      exact mem_runUpdate_of_phase
        (mem_updatePhase_of hmem hl (List.mem_append_left _ hd))
    · intro hen hig
      have hd : Action.updateDevice n 1 ∈ devUpdActions n ld dev := by
        unfold devUpdActions
        simp [hen, hig]
      exact mem_runUpdate_of_phase
        (mem_updatePhase_of hmem hl (List.mem_append_left _ hd))
  · intro cfg tmp st n ld e hmem hl
    refine ⟨?_, ?_, devNewIgnoreS_zero_iff n ld e⟩
    · intro hen hig
      have hd : Action.updateDevice n 0 ∈ devUpdActionsS n ld e := by
        unfold devUpdActionsS
        simp [hen, hig]
      exact mem_runSync_of_phase
        (mem_updatePhaseS_of hmem hl (List.mem_append_left _ hd))
    · intro hen hig
      have hd : Action.updateDevice n 1 ∈ devUpdActionsS n ld e := by
        unfold devUpdActionsS
        simp [hen, hig]
      exact mem_runSync_of_phase
        (mem_updatePhaseS_of hmem hl (List.mem_append_left _ hd))

/-- Witness for C1 (amended) at concrete inputs: enabled device `a` stored
with ignore 1 gets `update_device` ignore 0; inactive element `b` stored
with ignore 0 gets `update_element` ignore 1. -/
theorem c1_device_flag_sync_amended_witness :
    ("a", LDevice.mk 1) ∈ stIgn.devices ∧
    apiEn.lookup "a" = some ⟨true, true, true, []⟩ ∧
    Action.updateDevice "a" 0 ∈ runUpdate cfgA apiEn stIgn ∧
    ("b", LDevice.mk 0) ∈ sstAct.elements ∧
    (filterMonitored tmpInact).lookup "b" = some ⟨none, false, none⟩ ∧
    Action.updateDevice "b" 1 ∈ runSync cfgA tmpInact sstAct :=
  ⟨by decide, by decide,
   ((c1_device_flag_sync_amended.1 cfgA apiEn stIgn "a" ⟨1⟩ ⟨true, true, true, []⟩
      (by decide) (by decide)).1 (by decide) (by decide)),
   by decide, by decide,
   ((c1_device_flag_sync_amended.2 cfgA tmpInact sstAct "b" ⟨0⟩ ⟨none, false, none⟩
      (by decide) (by decide)).2.1 (by decide) (by decide))⟩

/-- C10: no redundant writes.  Device level (both scripts): when the stored
ignore flag already equals the derived one no `update_device`/
`update_element` call is issued, and a call is issued only when they
differ.  Interface level (both scripts): every issued interface update
targets a port whose stored ignore differs from the derived one, and when
every port's stored flag equals the derived one no interface update is
issued. -/
theorem c10_no_redundant_writes :
    (∀ n ld dev, ld.ignore = devDerived dev.enabled → devUpdActions n ld dev = []) ∧
    (∀ n ld dev a, a ∈ devUpdActions n ld dev → ld.ignore ≠ devDerived dev.enabled) ∧
    (∀ n ld e, ld.ignore = devDerived e.active → devUpdActionsS n ld e = []) ∧
    (∀ n ld e a, a ∈ devUpdActionsS n ld e → ld.ignore ≠ devDerived e.active) ∧
    (∀ cfg st n dev a, a ∈ syncIntfActions cfg st n dev →
      ∃ lintfs li, st.interfaces n = some lintfs ∧ li ∈ lintfs ∧
        li.ignore ≠ interfaceIgnore cfg dev li ∧
        a = Action.updateInterface li.port_id (interfaceIgnore cfg dev li)) ∧
    (∀ cfg st n dev lintfs, st.interfaces n = some lintfs →
      (∀ li ∈ lintfs, li.ignore = interfaceIgnore cfg dev li) →
      syncIntfActions cfg st n dev = []) ∧
    (∀ cfg st api hn a, a ∈ syncIntfActionsS cfg st api hn →
      ∃ lintfs e p, st.interfaces hn = some lintfs ∧ api.lookup hn = some e ∧
        p ∈ lintfs ∧
        p.2.ignore ≠ interfaceIgnoreS cfg (e.interfaces.getD []) p.1 ∧
        a = Action.updateInterface p.2.port_id
          (interfaceIgnoreS cfg (e.interfaces.getD []) p.1)) ∧
    (∀ cfg st api hn lintfs e, st.interfaces hn = some lintfs →
      api.lookup hn = some e →
      (∀ p ∈ lintfs, p.2.ignore = interfaceIgnoreS cfg (e.interfaces.getD []) p.1) →
      syncIntfActionsS cfg st api hn = []) := by
  refine ⟨?_, ?_, ?_, ?_, ?_, ?_, ?_, ?_⟩
  · intro n ld dev h
    unfold devUpdActions
    cases hb : dev.enabled <;> rw [hb] at h <;> simp [devDerived, hb] at h <;> simp [h]
  · intro n ld dev a ha heq
    unfold devUpdActions at ha
    split at ha
    · simp at ha
    · next h =>
      apply h
      rw [heq]
      cases hb : dev.enabled <;> simp [devDerived, hb]
  · intro n ld e h
    unfold devUpdActionsS
    cases hb : e.active <;> rw [hb] at h <;> simp [devDerived, hb] at h <;> simp [h]
  · intro n ld e a ha heq
    unfold devUpdActionsS at ha
    split at ha
    · simp at ha
    · next h =>
      apply h
      rw [heq]
      cases hb : e.active <;> simp [devDerived, hb]
  · intro cfg st n dev a ha
    unfold syncIntfActions at ha
    revert ha
    split
    · simp
    · next lintfs hst =>
      intro ha
      obtain ⟨li, hli, hsome⟩ := List.mem_filterMap.1 ha
      split at hsome
      · simp at hsome
      · next hne =>
        injection hsome with hsome
        exact ⟨lintfs, li, hst, hli, hne, hsome.symm⟩
  · intro cfg st n dev lintfs hst hall
    unfold syncIntfActions
    rw [hst]
    exact List.filterMap_eq_nil_iff.2 (fun li hli => by simp [hall li hli])
  · intro cfg st api hn a ha
    unfold syncIntfActionsS at ha
    revert ha
    split
    · simp
    · next lintfs hst =>
      split
      · simp
      · next e hl =>
        intro ha
        obtain ⟨p, hp, hsome⟩ := List.mem_filterMap.1 ha
        split at hsome
        · simp at hsome
        · next hne =>
          injection hsome with hsome
          exact ⟨lintfs, e, p, hst, hl, hp, hne, hsome.symm⟩
  · intro cfg st api hn lintfs e hst hl hall
    unfold syncIntfActionsS
    rw [hst, hl]
    exact List.filterMap_eq_nil_iff.2 (fun p hp => by simp [hall p hp])

/-- Witness for C10 at concrete inputs: an enabled device stored with
ignore 0 and an inactive element stored with ignore 1 get no device-level
call, and a port whose stored flag equals the derived one gets no
interface call. -/
theorem c10_no_redundant_writes_witness :
    devUpdActions "a" ⟨0⟩ ⟨true, true, true, []⟩ = [] ∧
    devUpdActionsS "b" ⟨1⟩ ⟨none, false, none⟩ = [] ∧
    syncIntfActions cfgA ⟨[], fun _ => some [⟨"eth9", "x", "y", 1, 3⟩]⟩ "a"
      ⟨true, true, false, []⟩ = [] :=
  ⟨c10_no_redundant_writes.1 "a" ⟨0⟩ ⟨true, true, true, []⟩ (by decide),
   c10_no_redundant_writes.2.2.1 "b" ⟨1⟩ ⟨none, false, none⟩ (by decide),
   c10_no_redundant_writes.2.2.2.2.2.1 cfgA
     ⟨[], fun _ => some [⟨"eth9", "x", "y", 1, 3⟩]⟩ "a" ⟨true, true, false, []⟩
     [⟨"eth9", "x", "y", 1, 3⟩] rfl (by decide)⟩

theorem pairwise_kind_const {l : List Action} {c : Nat} (h : ∀ x ∈ l, actionKind x = c) :
    l.Pairwise (fun a b => actionKind a ≤ actionKind b) := by
  induction l with
  | nil => exact List.Pairwise.nil
  | cons a t ih =>
    refine List.Pairwise.cons (fun b hb => ?_)
      (ih fun x hx => h x (List.mem_cons_of_mem _ hx))
    rw [h a (List.mem_cons_self _ _), h b (List.mem_cons_of_mem _ hb)]

theorem kind_mem_map_create {l : List String} {a : Action}
    (h : a ∈ l.map Action.create) : actionKind a = 0 := by
  obtain ⟨x, -, he⟩ := List.mem_map.1 h
  subst he; rfl

theorem kind_mem_map_delete {l : List String} {a : Action}
    (h : a ∈ l.map Action.delete) : actionKind a = 1 := by
  obtain ⟨x, -, he⟩ := List.mem_map.1 h
  subst he; rfl

/-- C8: in every run the reconciliation actions are issued in the order
create, then delete, then update: the phase ranks (`actionKind`: create 0,
delete 1, device- and interface-level update 2) of the issued call list are
monotone, for both scripts. -/
theorem c8_phase_order :
    (∀ cfg api st, ((runUpdate cfg api st).map actionKind).Pairwise (· ≤ ·)) ∧
    (∀ cfg tmp st, ((runSync cfg tmp st).map actionKind).Pairwise (· ≤ ·)) := by
  constructor
  · intro cfg api st
    rw [List.pairwise_map, runUpdate]
    refine List.pairwise_append.2 ⟨List.pairwise_append.2
      ⟨pairwise_kind_const (fun x hx => kind_mem_map_create hx),
       pairwise_kind_const (fun x hx => kind_mem_map_delete hx),
       fun a ha b hb => ?_⟩,
      pairwise_kind_const (fun x hx => kind_updatePhase hx),
      fun a ha b hb => ?_⟩
    · rw [kind_mem_map_create ha, kind_mem_map_delete hb]
      omega
    · rw [kind_updatePhase hb]
      rcases List.mem_append.1 ha with h' | h'
      · rw [kind_mem_map_create h']; omega
      · rw [kind_mem_map_delete h']; omega
  · intro cfg tmp st
    rw [List.pairwise_map, runSync]
    refine List.pairwise_append.2 ⟨List.pairwise_append.2
      ⟨pairwise_kind_const (fun x hx => kind_mem_map_create hx),
       pairwise_kind_const (fun x hx => kind_mem_map_delete hx),
       fun a ha b hb => ?_⟩,
      pairwise_kind_const (fun x hx => kind_updatePhaseS hx),
      fun a ha b hb => ?_⟩
    · rw [kind_mem_map_create ha, kind_mem_map_delete hb]
      omega
    · rw [kind_updatePhaseS hb]
      rcases List.mem_append.1 ha with h' | h'
      · rw [kind_mem_map_create h']; omega
      · rw [kind_mem_map_delete h']; omega

/-- C9: every exception raised while `main()` runs is caught by the single
top-level handler and reported via `utils.send_traceback`; the script
returns normally instead of propagating, performs no retry (the issued call
list is computed once), and performs no rollback (the calls issued before
the failure point are exactly the prefix of the run that was reached) — for
both scripts.  Without a fault the full run's calls are issued and nothing
is reported. -/
theorem c9_top_level_handler :
    (∀ cfg api st,
      scriptUpdate cfg api st none = (runUpdate cfg api st, []) ∧
      ∀ k, scriptUpdate cfg api st (some k) =
        ((runUpdate cfg api st).take k, [tracebackReport])) ∧
    (∀ cfg tmp st,
      scriptSync cfg tmp st none = (runSync cfg tmp st, []) ∧
      ∀ k, scriptSync cfg tmp st (some k) =
        ((runSync cfg tmp st).take k, [tracebackReport])) :=
  ⟨fun _ _ _ => ⟨rfl, fun _ => rfl⟩, fun _ _ _ => ⟨rfl, fun _ => rfl⟩⟩

/-- An empty Device-API inventory. -/
def apiEmpty : List (String × ApiDevice) := []

/-- An empty Elements-API inventory. -/
def tmpEmpty : List (String × Element) := []

/-- A LibreNMS state holding only the stale device `gone`. -/
def stGone : LibrenmsState := ⟨[("gone", ⟨0⟩)], fun _ => none⟩

/-- A LibreNMS state holding only the stale element `gone`. -/
def sstGone : SLibrenmsState := ⟨[("gone", ⟨0⟩)], fun _ => none⟩

/-- A configuration whose persistent lists hold the name `p`. -/
def cfgPersist : Config := ⟨[], [], ["p"], ["p"]⟩

/-- A LibreNMS state holding only the persistent device `p`. -/
def stPersist : LibrenmsState := ⟨[("p", ⟨0⟩)], fun _ => none⟩

/-- C3 (amended): for every device present in LibreNMS, no longer present
in the source inventory, and not listed among the configured persistent
devices/elements, the run issues a delete call — for both scripts. -/
theorem c3_delete_stale_amended :
    (∀ cfg api st n ld, (n, ld) ∈ st.devices → api.lookup n = none →
      cfg.persistent_devices.contains n = false →
      Action.delete n ∈ runUpdate cfg api st) ∧
    (∀ cfg tmp st n ld, (n, ld) ∈ st.elements →
      (filterMonitored tmp).lookup n = none →
      cfg.persistent_elements.contains n = false →
      Action.delete n ∈ runSync cfg tmp st) := by
  constructor
  · intro cfg api st n ld hmem hl hp
    have hp' : n ∉ cfg.persistent_devices := by simpa using hp
    have hn : n ∈ deleteList cfg api st := by
      refine List.mem_map.2 ⟨(n, ld), List.mem_filter.2 ⟨hmem, ?_⟩, rfl⟩
      simp [hp', hl]
    exact List.mem_append_left _
      (List.mem_append_right _ (List.mem_map.2 ⟨n, hn, rfl⟩))
  · intro cfg tmp st n ld hmem hl hp
    have hp' : n ∉ cfg.persistent_elements := by simpa using hp
    have hn : n ∈ deleteListS cfg (filterMonitored tmp) st := by
      refine List.mem_map.2 ⟨(n, ld), List.mem_filter.2 ⟨hmem, ?_⟩, rfl⟩
      simp [hp', hl]
    exact List.mem_append_left _
      (List.mem_append_right _ (List.mem_map.2 ⟨n, hn, rfl⟩))

/-- Witness for C3 (amended) at concrete inputs: the non-persistent stale
device and element `gone` each get a delete call. -/
theorem c3_delete_stale_amended_witness :
    ("gone", LDevice.mk 0) ∈ stGone.devices ∧
    apiEmpty.lookup "gone" = none ∧
    Action.delete "gone" ∈ runUpdate cfgA apiEmpty stGone ∧
    ("gone", LDevice.mk 0) ∈ sstGone.elements ∧
    (filterMonitored tmpEmpty).lookup "gone" = none ∧
    Action.delete "gone" ∈ runSync cfgA tmpEmpty sstGone :=
  ⟨by decide, by decide,
   c3_delete_stale_amended.1 cfgA apiEmpty stGone "gone" ⟨0⟩
     (by decide) (by decide) (by decide),
   by decide, by decide,
   c3_delete_stale_amended.2 cfgA tmpEmpty sstGone "gone" ⟨0⟩
     (by decide) (by decide) (by decide)⟩

/-- C3 counterexample: device `p` exists in LibreNMS and not in the source,
yet because it is listed in `persistent_devices` the run issues no delete
call for it — the claim as stated fails for persistent devices. -/
theorem c3_delete_stale_counterexample :
    ("p", LDevice.mk 0) ∈ stPersist.devices ∧
    apiEmpty.lookup "p" = none ∧
    (runUpdate cfgPersist apiEmpty stPersist).count (Action.delete "p") = 0 := by
  decide

theorem createList_nodup {api : List (String × ApiDevice)} {st : LibrenmsState}
    (hnd : (api.map Prod.fst).Nodup) : (createList api st).Nodup :=
  hnd.sublist (List.Sublist.map Prod.fst (List.filter_sublist api))

theorem createListS_nodup {api : List (String × Element)} {st : SLibrenmsState}
    (hnd : (api.map Prod.fst).Nodup) : (createListS api st).Nodup :=
  hnd.sublist (List.Sublist.map Prod.fst (List.filter_sublist api))

theorem filterMonitored_keys_nodup {tmp : List (String × Element)}
    (hnd : (tmp.map Prod.fst).Nodup) : ((filterMonitored tmp).map Prod.fst).Nodup :=
  hnd.sublist (List.Sublist.map Prod.fst (List.filter_sublist tmp))

theorem count_create_map_delete {l : List String} {n : String} :
    (l.map Action.delete).count (Action.create n) = 0 :=
  List.count_eq_zero.2 (fun hmem => by
    obtain ⟨x, -, he⟩ := List.mem_map.1 hmem
    simp at he)

theorem count_create_updatePhase {cfg api st n} :
    (updatePhase cfg api st).count (Action.create n) = 0 :=
  List.count_eq_zero.2 (fun hmem => by
    have := kind_updatePhase hmem
    simp [actionKind] at this)

theorem count_create_updatePhaseS {cfg api st n} :
    (updatePhaseS cfg api st).count (Action.create n) = 0 :=
  List.count_eq_zero.2 (fun hmem => by
    have := kind_updatePhaseS hmem
    simp [actionKind] at this)

/-- C2 (amended): for every device of the source inventory that passes the
monitoring filter — `enabled` and `monitor_librenms` in
`update_librenms.py`; `monitor_librenms` not explicitly False in
`sync_elements_to_librenms.py` — and that does not appear in LibreNMS, the
run issues exactly one create call (assuming the source inventory keys are
unique, as Python dict keys are). -/
theorem c2_create_missing_amended :
    (∀ cfg api st n dev, (api.map Prod.fst).Nodup → api.lookup n = some dev →
      dev.enabled = true → dev.monitor_librenms = true →
      st.devices.lookup n = none →
      (runUpdate cfg api st).count (Action.create n) = 1) ∧
    (∀ cfg tmp st n e, (tmp.map Prod.fst).Nodup →
      (filterMonitored tmp).lookup n = some e →
      st.elements.lookup n = none →
      (runSync cfg tmp st).count (Action.create n) = 1) := by
  constructor
  · intro cfg api st n dev hnd hl he hm hst
    have hmem : (n, dev) ∈ api := lookup_some_mem hl
    have hn : n ∈ createList api st :=
      List.mem_map.2 ⟨(n, dev), List.mem_filter.2 ⟨hmem, by simp [he, hm, hst]⟩, rfl⟩
    rw [runUpdate, List.count_append, List.count_append,
      List.count_map_of_injective _ Action.create (fun a b h => by injection h),
      count_create_map_delete, count_create_updatePhase,
      List.count_eq_one_of_mem (createList_nodup hnd) hn]
  · intro cfg tmp st n e hnd hl hst
    have hmem : (n, e) ∈ filterMonitored tmp := lookup_some_mem hl
    have hn : n ∈ createListS (filterMonitored tmp) st :=
      List.mem_map.2 ⟨(n, e), List.mem_filter.2 ⟨hmem, by simp [hst]⟩, rfl⟩
    rw [runSync, List.count_append, List.count_append,
      List.count_map_of_injective _ Action.create (fun a b h => by injection h),
      count_create_map_delete, count_create_updatePhaseS,
      List.count_eq_one_of_mem (createListS_nodup (filterMonitored_keys_nodup hnd)) hn]

/-- A one-element Elements-API inventory: `b` active, no monitor key. -/
def tmpAct : List (String × Element) := [("b", ⟨none, true, none⟩)]

/-- An empty LibreNMS device state. -/
def stEmpty : LibrenmsState := ⟨[], fun _ => none⟩

/-- An empty LibreNMS element state. -/
def sstEmpty : SLibrenmsState := ⟨[], fun _ => none⟩

/-- Witness for C2 (amended) at concrete inputs: the enabled, monitored
device `a` and the unfiltered element `b`, both absent from LibreNMS, each
get exactly one create call. -/
theorem c2_create_missing_amended_witness :
    apiEn.lookup "a" = some ⟨true, true, true, []⟩ ∧
    stEmpty.devices.lookup "a" = none ∧
    (runUpdate cfgA apiEn stEmpty).count (Action.create "a") = 1 ∧
    (filterMonitored tmpAct).lookup "b" = some ⟨none, true, none⟩ ∧
    sstEmpty.elements.lookup "b" = none ∧
    (runSync cfgA tmpAct sstEmpty).count (Action.create "b") = 1 :=
  ⟨by decide, by decide,
   c2_create_missing_amended.1 cfgA apiEn stEmpty "a" ⟨true, true, true, []⟩
     (by decide) (by decide) (by decide) (by decide) (by decide),
   by decide, by decide,
   c2_create_missing_amended.2 cfgA tmpAct sstEmpty "b" ⟨none, true, none⟩
     (by decide) (by decide) (by decide)⟩

/-- A one-device Device-API inventory: `d` disabled but monitored. -/
def apiDis : List (String × ApiDevice) := [("d", ⟨false, true, true, []⟩)]

/-- C2 counterexample: device `d` appears in the source inventory and not in
LibreNMS, yet because it is not `enabled` the run issues no create call for
it — the claim as stated fails for disabled source devices. -/
theorem c2_create_missing_counterexample :
    apiDis.lookup "d" = some ⟨false, true, true, []⟩ ∧
    stEmpty.devices.lookup "d" = none ∧
    (runUpdate cfgTwoRoles apiDis stEmpty).count (Action.create "d") = 0 := by
  decide

/-- C7 (amended): the create set is disjoint from the delete set and from
the device-level update set in both scripts, and in
`sync_elements_to_librenms.py` the delete set is also disjoint from the
update set; in `update_librenms.py`, however, a non-persistent device that
is present in both inventories but disabled in the source can receive both
a delete call and a device-level update call in the same run. -/
theorem c7_partition_amended :
    (∀ cfg api st n, Action.create n ∈ runUpdate cfg api st →
      Action.delete n ∉ runUpdate cfg api st ∧
      ∀ v, Action.updateDevice n v ∉ runUpdate cfg api st) ∧
    (∀ cfg tmp st n, Action.create n ∈ runSync cfg tmp st →
      Action.delete n ∉ runSync cfg tmp st ∧
      ∀ v, Action.updateDevice n v ∉ runSync cfg tmp st) ∧
    (∀ cfg tmp st n v, Action.delete n ∈ runSync cfg tmp st →
      Action.updateDevice n v ∉ runSync cfg tmp st) := by
  refine ⟨?_, ?_, ?_⟩
  · intro cfg api st n hc
    have hnone : st.devices.lookup n = none := by
      obtain ⟨p, hp, he⟩ := List.mem_map.1 (create_mem_runUpdate hc)
      have hq := (List.mem_filter.1 hp).2
      rw [he] at hq
      simp only [Bool.and_eq_true, Option.isNone_iff_eq_none] at hq
      exact hq.2
    constructor
    · intro hd
      obtain ⟨q, hq, he'⟩ := List.mem_map.1 (delete_mem_runUpdate hd)
      obtain ⟨q1, q2⟩ := q
      simp only at he'
      subst he'
      exact lookup_none_not_mem hnone q2 (List.mem_filter.1 hq).1
    · intro v hu
      obtain ⟨ld, hld, -⟩ := updDev_mem_runUpdate hu
      exact lookup_none_not_mem hnone ld hld
  · intro cfg tmp st n hc
    have hnone : st.elements.lookup n = none := by
      obtain ⟨p, hp, he⟩ := List.mem_map.1 (create_mem_runSync hc)
      have hq := (List.mem_filter.1 hp).2
      rw [he] at hq
      simp only [Option.isNone_iff_eq_none] at hq
      exact hq
    constructor
    · intro hd
      obtain ⟨q, hq, he'⟩ := List.mem_map.1 (delete_mem_runSync hd)
      obtain ⟨q1, q2⟩ := q
      simp only at he'
      subst he'
      exact lookup_none_not_mem hnone q2 (List.mem_filter.1 hq).1
    · intro v hu
      obtain ⟨ld, hld, -⟩ := updDev_mem_runSync hu
      exact lookup_none_not_mem hnone ld hld
  · intro cfg tmp st n v hd hu
    obtain ⟨q, hq, he'⟩ := List.mem_map.1 (delete_mem_runSync hd)
    have hpred := (List.mem_filter.1 hq).2
    rw [he'] at hpred
    simp only [Bool.and_eq_true, Option.isNone_iff_eq_none] at hpred
    obtain ⟨-, -, hsome⟩ := updDev_mem_runSync hu
    rw [hpred.1] at hsome
    simp at hsome

/-- A LibreNMS state holding device/element `d` with stored ignore 0. -/
def stD : LibrenmsState := ⟨[("d", ⟨0⟩)], fun _ => none⟩

/-- Witness for C7 (amended) at concrete inputs: device `a` (and element
`b`) get a create call and no delete or device-level update; the stale
element `gone` gets a delete call and no device-level update. -/
theorem c7_partition_amended_witness :
    Action.create "a" ∈ runUpdate cfgA apiEn stEmpty ∧
    Action.delete "a" ∉ runUpdate cfgA apiEn stEmpty ∧
    Action.updateDevice "a" 0 ∉ runUpdate cfgA apiEn stEmpty ∧
    Action.create "b" ∈ runSync cfgA tmpAct sstEmpty ∧
    Action.delete "b" ∉ runSync cfgA tmpAct sstEmpty ∧
    Action.delete "gone" ∈ runSync cfgA tmpEmpty sstGone ∧
    Action.updateDevice "gone" 1 ∉ runSync cfgA tmpEmpty sstGone :=
  ⟨by decide,
   (c7_partition_amended.1 cfgA apiEn stEmpty "a" (by decide)).1,
   (c7_partition_amended.1 cfgA apiEn stEmpty "a" (by decide)).2 0,
   by decide,
   (c7_partition_amended.2.1 cfgA tmpAct sstEmpty "b" (by decide)).1,
   by decide,
   c7_partition_amended.2.2 cfgA tmpEmpty sstGone "gone" 1 (by decide)⟩

/-- C7 counterexample: in `update_librenms.py`, device `d` is present in
LibreNMS with ignore 0 and present-but-disabled in the Device-API, is not
persistent, and the same run issues both a delete call and a device-level
update call for it — the three action sets are not pairwise disjoint. -/
theorem c7_partition_counterexample :
    Action.delete "d" ∈ runUpdate cfgTwoRoles apiDis stD ∧
    Action.updateDevice "d" 1 ∈ runUpdate cfgTwoRoles apiDis stD := by
  decide

/-- A one-element Elements-API inventory: `p` active but with
`monitor_librenms` explicitly False. -/
def tmpUnmon : List (String × Element) := [("p", ⟨some false, true, none⟩)]

/-- A LibreNMS state holding element `p` with stored ignore 1. -/
def sstStale : SLibrenmsState := ⟨[("p", ⟨1⟩)], fun _ => none⟩

/-- C1 counterexample: element `p` appears in both the source inventory
(active, stored ignore 1) and the LibreNMS inventory, but carries
`monitor_librenms = False`, so `sync_elements_to_librenms.py` drops it from
`api_elements` and its update loop skips it; being persistent it is not
deleted either, and the run issues no call at all — in particular not the
`update` with ignore 0 the claim as stated demands, leaving the stale flag
in place. -/
theorem c1_device_flag_sync_counterexample :
    ("p", LDevice.mk 1) ∈ sstStale.elements ∧
    tmpUnmon.lookup "p" = some ⟨some false, true, none⟩ ∧
    (runSync cfgPersist tmpUnmon sstStale).count (Action.updateDevice "p" 0) = 0 ∧
    runSync cfgPersist tmpUnmon sstStale = [] := by
  decide

end Abtools
